import Mathlib

/-!
Shallow embedding of the `hex_api_integration` repository (Airbus
GeoStore / OneAtlas and HEADFinder client wrappers) and verification of
the specified properties.

Conventions of the embedding:
* Python runtime values that flow through the payload dictionaries are
  modelled by the inductive type `PyVal`; Python truthiness is `pyTruthy`
  and `str()` is `pyStr`.
* A Python `dict` is modelled as a function `String → Option PyVal`
  (`PyDict`), with `PyDict.set` for item assignment.  No verified claim
  depends on insertion order.
* HTTP traffic is modelled by oracle arguments: a function or record
  standing for the response the remote service returns.  A call path
  "completes without a transport fault" exactly when it is in the domain
  the embedding describes (responses arrive and their bodies decode).
* Python exceptions are modelled with `Except String`; functions that
  cannot raise are total.
* Python floats occur only as opaque scalars (truthiness and string
  rendering); they are carried as `PyVal` and never computed with.
-/

namespace HexApi

/-- Model of the Python values handled by the wrappers: `None`, booleans,
integers, strings, lists and (string-keyed) dicts. -/
inductive PyVal where
  | none
  | bool (b : Bool)
  | int (n : Int)
  | str (s : String)
  | list (l : List PyVal)
  | dict (d : List (String × PyVal))

instance : Inhabited PyVal := ⟨PyVal.none⟩

/-- Python truthiness (`bool(v)`): `None`, `False`, `0`, `""`, `[]` and
`{}` are falsy, everything else truthy. -/
def pyTruthy : PyVal → Bool
  | .none => false
  | .bool b => b
  | .int n => n != 0
  | .str s => s != ""
  | .list l => !l.isEmpty
  | .dict d => !d.isEmpty

mutual

/-- Python `repr(v)` (only the shape matters to the claims; strings are
quoted, containers recurse). -/
def pyRepr : PyVal → String
  | .none => "None"
  | .bool b => if b then "True" else "False"
  | .int n => toString n
  | .str s => "'" ++ s ++ "'"
  | .list l => "[" ++ String.intercalate ", " (pyReprList l) ++ "]"
  | .dict d => "\x7b" ++ String.intercalate ", " (pyReprDict d) ++ "\x7d"

/-- `repr` mapped over a list of values. -/
def pyReprList : List PyVal → List String
  | [] => []
  | v :: vs => pyRepr v :: pyReprList vs

/-- `repr` mapped over the items of a dict. -/
def pyReprDict : List (String × PyVal) → List String
  | [] => []
  | (k, v) :: ps => ("'" ++ k ++ "': " ++ pyRepr v) :: pyReprDict ps

end

/-- Python `str(v)`: identity on strings, `repr`-style on containers. -/
def pyStr : PyVal → String
  | .none => "None"
  | .bool b => if b then "True" else "False"
  | .int n => toString n
  | .str s => s
  | .list l => "[" ++ String.intercalate ", " (pyReprList l) ++ "]"
  | .dict d => "\x7b" ++ String.intercalate ", " (pyReprDict d) ++ "\x7d"

/-- `type(v) == list` -/
def PyVal.isList : PyVal → Bool
  | .list _ => true
  | _ => false

/-- The elements of a Python list value (`[]` on non-lists; only read
behind an `isList` test). -/
def PyVal.listElems : PyVal → List PyVal
  | .list l => l
  | _ => []

/-- A Python dict used as a request payload, modelled extensionally. -/
def PyDict := String → Option PyVal

/-- `payload = dict()` -/
def PyDict.empty : PyDict := fun _ => Option.none

/-- `payload[k] = v` -/
def PyDict.set (d : PyDict) (k : String) (v : PyVal) : PyDict :=
  fun k2 => if k2 = k then some v else d k2

theorem PyDict.set_eval (d : PyDict) (k : String) (v : PyVal) (k2 : String) :
    (d.set k v) k2 = if k2 = k then some v else d k2 := rfl

theorem PyDict.ite_eval (c : Prop) [Decidable c] (d1 d2 : PyDict) (k : String) :
    (if c then d1 else d2) k = if c then d1 k else d2 k := by
  by_cases h : c <;> simp [h]

/-- `d.get(k)` on a decoded JSON object: the stored value, or `None` when
the key is absent. -/
def dictGet (d : List (String × PyVal)) (k : String) : PyVal :=
  match d.find? (fun p => p.1 == k) with
  | some p => p.2
  | Option.none => PyVal.none

/-- `v[k]` — Python subscripting, which raises `KeyError` on a missing
key and `TypeError` on a non-dict. -/
def PyVal.getItem : PyVal → String → Except String PyVal
  | .dict d, k =>
    match d.find? (fun p => p.1 == k) with
    | some p => .ok p.2
    | Option.none => .error ("KeyError: " ++ k)
  | _, k => .error ("TypeError: value is not subscriptable: " ++ k)

/-! ## `geoapi_airbus/auth.py` — class `Authentication`

The credential-exchange response (`requests.post` to the token endpoint)
and the responses of the authenticated GET endpoints are modelled by
`AuthResponse`: the HTTP status code together with the decoded JSON body
(`response.json()`).  A session is the mutable `(token, errors)` pair of
an `Authentication` object. -/

/-- An HTTP response as `auth.py` consumes it: status code and decoded
JSON object body. -/
structure AuthResponse where
  status : Int
  body : List (String × PyVal)

/-- The mutable state of an `Authentication` object: the api key given to
`__init__` and the `token` / `errors` fields. -/
structure Session where
  api_key : String
  token : PyVal
  errors : PyVal

/-- `Authentication.__init__`: `self.token = None`, `self.errors = None`. -/
def Session.new (api_key : String) : Session :=
  { api_key := api_key, token := PyVal.none, errors := PyVal.none }

/-- `Authentication.get_token`, given the credential-exchange response
`r`.  On status 403 it stores the decoded body in `errors` and returns
`False`; otherwise it stores `response.json().get('access_token')` in
`token` and returns `True`.  Neither branch touches the other field. -/
def get_token (s : Session) (r : AuthResponse) : Session × Bool :=
  if r.status = 403 then
    ({ s with errors := .dict r.body }, false)
  else
    ({ s with token := dictGet r.body "access_token" }, true)

/-- The lazy-authentication preamble shared by `get_roles`, `get_me`,
`get_all_subscriptions` and `get_cis_contracts`:
`if not self.token: token = self.get_token(); if not token: return False`.
Returns the updated session and whether the operation may proceed. -/
def ensure_token (s : Session) (authResp : AuthResponse) : Session × Bool :=
  if ¬ pyTruthy s.token then get_token s authResp
  else (s, true)

/-- `Authentication.get_roles`, with `rolesResp` the response of the GET
on `/api/v1/me/services`.  Returns `False` when lazy authentication
fails or the GET answers 403, else the decoded body. -/
def get_roles (s : Session) (authResp rolesResp : AuthResponse) :
    Session × PyVal :=
  let p := ensure_token s authResp
  if ¬ p.2 then (p.1, .bool false)
  else if rolesResp.status = 403 then (p.1, .bool false)
  else (p.1, .dict rolesResp.body)

/-- `Authentication.get_me`, with `meResp` the response of the GET on
`/api/v1/me`. -/
def get_me (s : Session) (authResp meResp : AuthResponse) :
    Session × PyVal :=
  let p := ensure_token s authResp
  if ¬ p.2 then (p.1, .bool false)
  else if meResp.status = 403 then (p.1, .bool false)
  else (p.1, .dict meResp.body)

/-- `Authentication.get_contract_id`: reads `get_me()`, then
`user_info['contract']['id']` guarded by the three falsiness checks.
Subscripting may raise, hence `Except`. -/
def get_contract_id (s : Session) (authResp meResp : AuthResponse) :
    Except String (Session × PyVal) := do
  let p := get_me s authResp meResp
  let user_info := p.2
  if ¬ pyTruthy user_info then return (p.1, .none)
  let contract ← user_info.getItem "contract"
  if ¬ pyTruthy contract then return (p.1, .none)
  let cid ← contract.getItem "id"
  if ¬ pyTruthy cid then return (p.1, .none)
  return (p.1, cid)

/-- `Authentication.__get_all_subscriptions_url`. -/
def get_all_subscriptions_url (contract_id : String) : String :=
  "https://data.api.oneatlas.airbus.com/api/v1/contracts/" ++
    contract_id ++ "/subscriptions"

/-- `Authentication.get_all_subscriptions`, with `subsResp` the response
of the GET on the subscriptions URL. -/
def get_all_subscriptions (s : Session)
    (authResp meResp subsResp : AuthResponse) :
    Except String (Session × PyVal) := do
  let p := ensure_token s authResp
  if ¬ p.2 then return (p.1, .bool false)
  let q ← get_contract_id p.1 authResp meResp
  let _url := get_all_subscriptions_url (pyStr q.2)
  if subsResp.status = 403 then return (q.1, .bool false)
  return (q.1, .dict subsResp.body)

/-- `Authentication.get_cis_contracts`, with `cisResp` the response of
the GET on the contracts URL. -/
def get_cis_contracts (s : Session) (authResp cisResp : AuthResponse) :
    Session × PyVal :=
  let p := ensure_token s authResp
  if ¬ p.2 then (p.1, .bool false)
  else if cisResp.status = 403 then (p.1, .bool false)
  else (p.1, .dict cisResp.body)

/-! ## `geoapi_airbus/api.py` — class `AbstractApi`

The two range codecs.  `'[\x7b\x7d,\x7b\x7d['.format(*value_list)` applies
`str()` to the elements of `value_list`, which the docstring fixes to a
"list with 2 values"; the codec is therefore modelled on the two values.
Both are pure functions of their arguments. -/

/-- `AbstractApi._get_included_values([a, b])`:
`'[...,...['.format(a, b)`. -/
def abstract_get_included_values (a b : PyVal) : String :=
  "[" ++ pyStr a ++ "," ++ pyStr b ++ "["

/-- `AbstractApi._get_less_than_or_equals(value)`: `'...['.format(value)`. -/
def abstract_get_less_than_or_equals (value : PyVal) : String :=
  pyStr value ++ "["

/-! ## `geoapi_airbus/geostore.py` — class `Api` (GeoStore) -/

/-- `Api.__get_dates([a, b])` — textually the same formatting as
`AbstractApi._get_included_values`. -/
def geostore_get_dates (a b : PyVal) : String :=
  "[" ++ pyStr a ++ "," ++ pyStr b ++ "["

/-- `Api.__get_less_than_or_equals(data)`. -/
def geostore_get_less_than_or_equals (data : PyVal) : String :=
  pyStr data ++ "["

/-- `Api.__get_sort_keys(sort_key)`.  `sort_key[0] == "-"` under the
non-emptiness guard is rendered as `startsWith "-"`; `sort_key[1:]` as
`drop 1`.  A `None` sort key behaves like the empty string (both fail
the `if sort_key and len(sort_key)` guard), so the argument is a
`String`. -/
def geostore_get_sort_keys (sort_key : String) : String :=
  if sort_key ≠ "" then
    let p := if sort_key.startsWith "-" then ("0", sort_key.drop 1)
             else ("1", sort_key)
    let key := if p.2 = "date" then "acquisitionDate"
               else if p.2 = "cloud_rate" then "cloudCover"
               else "acquisitionDate"
    key ++ ",," ++ p.1
  else "acquisitionDate,,1"

/-- Modelled from the spec's words for the sort-key mapping (claim about
the sort-key encoding): a leading `-` marks descending order (order "0",
otherwise "1") and is stripped before mapping; after stripping, `date`
maps to `acquisitionDate`, `cloud_rate` to `cloudCover`, and anything
else (the empty string included) falls back to `acquisitionDate`; the
result has the shape `<field>,,<order>`. -/
def sortKeysSpec (sort_key : String) : String :=
  let descending := sort_key.startsWith "-"
  let stripped := if descending then sort_key.drop 1 else sort_key
  let field := if stripped = "date" then "acquisitionDate"
               else if stripped = "cloud_rate" then "cloudCover"
               else "acquisitionDate"
  let order := if descending then "0" else "1"
  field ++ ",," ++ order

/-- `geostore.Api.get_payload`.  Parameter types follow the docstring:
list-valued filters are `List PyVal`, scalar filters are `PyVal`
(defaulting to `None` in the source), the date range is the documented
two-value list `(low, high)` with `Option.none` for the empty default,
`count` / `start_page` are ints and `sort_key` a string.  Source
defaults: `count=20`, `start_page=1`, `sort_key='-date'`. -/
def geostore_get_payload
    (bbox : List PyVal)
    (constellation : List PyVal)
    (acquisition_date_range : Option (PyVal × PyVal))
    (polarisation_channels : List PyVal)
    (product_type : List PyVal)
    (resolution : PyVal)
    (geometry : PyVal)
    (cloud_cover : PyVal)
    (snow_cover : PyVal)
    (incidence_angle : PyVal)
    (sensor_type : List PyVal)
    (antenna_look_direction : List PyVal)
    (orbit_direction : List PyVal)
    (count : Int)
    (start_page : Int)
    (sort_key : String) : PyDict :=
  let payload := PyDict.empty
  let payload := payload.set "count" (.int count)
  let payload := payload.set "startPage" (.int 1)
  let payload := payload.set "sortKeys" (.str (geostore_get_sort_keys sort_key))
  let payload := if pyTruthy geometry then payload.set "geometry" geometry
                 else payload
  let payload := if !bbox.isEmpty then payload.set "bbox" (.list bbox)
                 else payload
  let payload := if !constellation.isEmpty then
                   payload.set "constellation" (.list constellation)
                 else payload
  let payload := match acquisition_date_range with
                 | some r =>
                   payload.set "acquisitionDate"
                     (.str (geostore_get_dates r.1 r.2))
                 | Option.none => payload
  let payload := if !polarisation_channels.isEmpty then
                   payload.set "polarisationChannels"
                     (.list polarisation_channels)
                 else payload
  let payload := if !product_type.isEmpty then
                   payload.set "productType" (.list product_type)
                 else payload
  let payload := if pyTruthy resolution then
                   payload.set "resolution"
                     (.str (geostore_get_less_than_or_equals resolution))
                 else payload
  let payload := if pyTruthy cloud_cover then
                   payload.set "cloudCover"
                     (.str (geostore_get_less_than_or_equals cloud_cover))
                 else payload
  let payload := if pyTruthy snow_cover then
                   payload.set "snowCover"
                     (.str (geostore_get_less_than_or_equals snow_cover))
                 else payload
  let payload := if pyTruthy incidence_angle then
                   payload.set "incidenceAngle"
                     (.str (geostore_get_less_than_or_equals incidence_angle))
                 else payload
  let payload := if !sensor_type.isEmpty then
                   payload.set "sensorType" (.list sensor_type)
                 else payload
  let payload := if !antenna_look_direction.isEmpty then
                   payload.set "antennaLookDirection"
                     (.list antenna_look_direction)
                 else payload
  let payload := if !orbit_direction.isEmpty then
                   payload.set "orbitDirection" (.list orbit_direction)
                 else payload
  let payload := if count ≠ 0 then payload.set "count" (.int count)
                 else payload
  let payload := if start_page ≠ 0 then
                   payload.set "startPage" (.int start_page)
                 else payload
  payload

/-! ## `geoapi_airbus/oneatlas.py` — class `Api(AbstractApi)` (OneAtlas) -/

/-- `oneatlas.Api.get_payload`.  Parameter types per the docstring:
`bbox` and `constellation` are kept as `PyVal` because the source
branches on their runtime type; the joined string lists (`platform`,
`product_type`, `production_status`, `processing_level`) are
`List String`; scalar filters are `PyVal`; the date ranges are the
documented two-value lists.  Source defaults: `cloud_cover=100.0`,
`snow_cover=100.0`, `constellation=['PHR','SPOT','PNEO']`,
`processing_level=['SENSOR','ALBUM']`, `count=20`, `start_page=1`,
`sort_key='-acquisitionDate,cloudCover'`. -/
def oneatlas_get_payload
    (bbox : PyVal)
    (geometry : PyVal)
    (acquisition_date_range : Option (PyVal × PyVal))
    (publication_date_range : Option (PyVal × PyVal))
    (cloud_cover : PyVal)
    (snow_cover : PyVal)
    (commercial_reference : PyVal)
    (constellation : PyVal)
    (incidence_angle : PyVal)
    (parent_idenfifier : PyVal)
    (platform : List String)
    (product_type : List String)
    (production_status : List String)
    (resolution : PyVal)
    (source_identifier : PyVal)
    (workspace : PyVal)
    (processing_level : List String)
    (count : Int)
    (start_page : Int)
    (sort_key : String) : PyDict :=
  let payload := PyDict.empty
  let payload := payload.set "itemsPerPage" (.int count)
  let payload := payload.set "startPage" (.int start_page)
  let payload := payload.set "sortBy" (.str sort_key)
  -- `if bbox:` then `if type(bbox) == list or type(bbox) == tuple:` join
  -- with `,` after `str()` per point, `else:` store as given.
  let payload := if pyTruthy bbox then
                   payload.set "bbox"
                     (if bbox.isList then
                        .str (String.intercalate ","
                          (bbox.listElems.map pyStr))
                      else bbox)
                 else payload
  let payload := if pyTruthy geometry then payload.set "geometry" geometry
                 else payload
  let payload := if pyTruthy incidence_angle then
                   payload.set "incidenceAngle"
                     (.str (abstract_get_less_than_or_equals incidence_angle))
                 else payload
  let payload := match acquisition_date_range with
                 | some r =>
                   payload.set "acquisitionDate"
                     (.str (abstract_get_included_values r.1 r.2))
                 | Option.none => payload
  let payload := match publication_date_range with
                 | some r =>
                   payload.set "publicationDate"
                     (.str (abstract_get_included_values r.1 r.2))
                 | Option.none => payload
  let payload := if pyTruthy cloud_cover then
                   payload.set "cloudCover"
                     (.str (abstract_get_less_than_or_equals cloud_cover))
                 else payload
  let payload := if pyTruthy snow_cover then
                   payload.set "snowCover"
                     (.str (abstract_get_less_than_or_equals snow_cover))
                 else payload
  let payload := if pyTruthy commercial_reference then
                   payload.set "commercialReference" commercial_reference
                 else payload
  let payload := if pyTruthy parent_idenfifier then
                   payload.set "parentIdenfifier" parent_idenfifier
                 else payload
  -- `if constellation and type(constellation) == list:` join with `,`.
  let payload := if pyTruthy constellation && constellation.isList then
                   payload.set "constellation"
                     (.str (String.intercalate ","
                       (constellation.listElems.map pyStr)))
                 else payload
  let payload := if !platform.isEmpty then
                   payload.set "platform"
                     (.str (String.intercalate "," platform))
                 else payload
  let payload := if !product_type.isEmpty then
                   payload.set "productType"
                     (.str (String.intercalate "," product_type))
                 else payload
  let payload := if pyTruthy source_identifier then
                   payload.set "sourceIdentifier" source_identifier
                 else payload
  let payload := if pyTruthy workspace then
                   payload.set "workspace" workspace
                 else payload
  let payload := if !processing_level.isEmpty then
                   payload.set "processingLevel"
                     (.str (String.intercalate "," processing_level))
                 else payload
  let payload := if !production_status.isEmpty then
                   payload.set "productionStatus"
                     (.str (String.intercalate "," production_status))
                 else payload
  let payload := if pyTruthy resolution then
                   payload.set "resolution"
                     (.str (abstract_get_less_than_or_equals resolution))
                 else payload
  payload

/-! ## `headfinder_api/search_api.py` — class `Api` (HEADFinder) -/

/-- `search_api.Api.get_payload`.  `user_key` is the key stored by
`__init__`.  Parameter types per the docstring: `bbox` a coordinate
list (the f-string indexes elements 1,0,3,2; a shorter truthy list
would raise `IndexError` in Python — rendered total with `getD`, which
no claim exercises), `satellites` a list of names joined with `$`,
`scene_id_exact_match` a `bool` or `None` (the source tests
`is None or is True`), `max_scenes` an int or `None`, the remaining
filters scalars.  Source defaults: `scene_id_exact_match=True`,
`max_scenes=50`, `cloud_cover=100`, `incidence_angle=60`, others
`None`. -/
def headfinder_get_payload
    (user_key : String)
    (bbox : List PyVal)
    (geometry : PyVal)
    (satellites : List String)
    (scene_id : PyVal)
    (scene_id_exact_match : Option Bool)
    (max_scenes : Option Int)
    (start_date : PyVal)
    (end_date : PyVal)
    (cloud_cover : PyVal)
    (incidence_angle : PyVal) : PyDict :=
  let payload := PyDict.empty
  let payload := payload.set "req" (.str "d01")
  let payload := payload.set "category" (.str "searchapi-01")
  let payload := payload.set "user" (.str user_key)
  let payload := payload.set "overlapmin" (.int 10)
  let payload := if pyTruthy geometry then payload.set "aoi" geometry
                 else if !bbox.isEmpty then
                   payload.set "aoi"
                     (.str ("rectangle((" ++ pyStr (bbox.getD 1 .none) ++
                       "," ++ pyStr (bbox.getD 0 .none) ++ "),(" ++
                       pyStr (bbox.getD 3 .none) ++ "," ++
                       pyStr (bbox.getD 2 .none) ++ "))"))
                 else payload
  -- the `else:` branch of `if satellites:` only rebinds a local variable
  let payload := if !satellites.isEmpty then
                   payload.set "satellites"
                     (.str ("$" ++ String.intercalate "$" satellites ++ "$"))
                 else payload
  let payload := if pyTruthy scene_id then payload.set "scenename" scene_id
                 else payload
  let payload := if scene_id_exact_match = Option.none ∨
                    scene_id_exact_match = some true then
                   payload.set "scenenamematch" (.str "exact")
                 else payload.set "scenenamematch" (.str "partial")
  -- `if max_scenes and max_scenes <= 50:` — `None` and `0` are falsy.
  let payload := match max_scenes with
                 | some n =>
                   if n ≠ 0 ∧ n ≤ 50 then payload.set "maxscenes" (.int n)
                   else payload.set "maxscenes" (.int 50)
                 | Option.none => payload.set "maxscenes" (.int 50)
  let payload := if pyTruthy start_date then
                   payload.set "datestart" start_date
                 else payload
  let payload := if pyTruthy end_date then payload.set "dateend" end_date
                 else payload
  let payload := if pyTruthy cloud_cover then
                   payload.set "cloudmax" cloud_cover
                 else payload
  let payload := if pyTruthy incidence_angle then
                   payload.set "offnadirmax" incidence_angle
                 else payload
  payload

/-! ## Preview-image download (`get_image_data` / `get_image_path`)

The network is an oracle `fetch : String → HttpResponse` giving the
response of the `requests.get` on each URL (headers, and GeoStore's
`img_size` request parameter, are fixed by the caller and folded into
the oracle).  The outcome records the returned value or raised error,
the URLs requested, and the files written, so that "no network call"
and "writes no file" are statable.  `tempfile._get_default_tempdir()`
joined with the generated candidate name is the oracle `temp_name`;
the filesystem is fault-free (a write failure would re-raise as
`ValueError` in both sources). -/

/-- An HTTP response as the image endpoints consume it: `response.ok`
and the body bytes `response.content`. -/
structure HttpResponse where
  ok : Bool
  content : List Nat

/-- Result of a `get_image_path` call: the Python return value (or the
message of the exception raised), the requested URLs in order, and the
`(path, bytes)` pairs written to disk. -/
structure ImagePathOutcome where
  result : Except String (Option String)
  requested : List String
  written : List (String × List Nat)

/-- `oneatlas.Api.get_image_data(preview_url)`: returns the response if
`response and response.ok` (a `requests.Response` is truthy exactly when
it is `ok`), else `None`. -/
def oneatlas_get_image_data (fetch : String → HttpResponse)
    (url : String) : Option HttpResponse :=
  let r := fetch url
  if r.ok then some r else Option.none

/-- `geostore.Api.get_image_data(preview_url, img_size)` — same
`response and response.ok` logic; `img_size` only shapes the request
parameters, which live in the oracle. -/
def geostore_get_image_data (fetch : String → HttpResponse)
    (url : String) : Option HttpResponse :=
  let r := fetch url
  if r.ok then some r else Option.none

/-- The shared tail of both `get_image_path` bodies: if
`response and response.ok`, write `response.content` to
`<temp_name>.jpg` and return that path, else return `None`. -/
def write_image_to_temp (resp : Option HttpResponse)
    (requested : List String) (temp_name : String) : ImagePathOutcome :=
  match resp with
  | some r =>
    if r.ok then
      let path := temp_name ++ ".jpg"
      { result := .ok (some path), requested := requested,
        written := [(path, r.content)] }
    else { result := .ok Option.none, requested := requested, written := [] }
  | Option.none =>
    { result := .ok Option.none, requested := requested, written := [] }

/-- A OneAtlas feature as `get_image_path` reads it:
`feature.get('_links').get('thumbnail').get('href')`.  A supplied
feature dict is truthy (non-empty), so `Option` models presence. -/
structure OneAtlasFeature where
  thumbnail_href : String

/-- One thumbnail variant of a GeoStore feature's `quicklooks` list. -/
structure Quicklook where
  size : String
  image : String

/-- A GeoStore feature as `get_image_path` reads it. -/
structure GeoStoreFeature where
  quicklooks : List Quicklook

/-- `oneatlas.Api.get_image_path(feature, preview_url)`.  `None` for
`preview_url` is the empty string (both are falsy in the
`if feature and preview_url` test). -/
def oneatlas_get_image_path (feature : Option OneAtlasFeature)
    (preview_url : String) (fetch : String → HttpResponse)
    (temp_name : String) : ImagePathOutcome :=
  if feature.isSome ∧ preview_url ≠ "" then
    { result := .error "Both feature and preview_url is not allowed",
      requested := [], written := [] }
  else
    let url := match feature with
               | some f => f.thumbnail_href
               | Option.none => preview_url
    write_image_to_temp (oneatlas_get_image_data fetch url) [url] temp_name

/-- `geostore.Api.get_image_path(feature, preview_url, img_size)`.
`next(filter(lambda x: x.get("size") == img_size, feature.get("quicklooks")))`
raises `StopIteration` when no variant matches. -/
def geostore_get_image_path (feature : Option GeoStoreFeature)
    (preview_url : String) (img_size : String)
    (fetch : String → HttpResponse) (temp_name : String) :
    ImagePathOutcome :=
  if feature.isSome ∧ preview_url ≠ "" then
    { result := .error "Both feature and preview_url is not allowed",
      requested := [], written := [] }
  else
    match feature with
    | some f =>
      match (f.quicklooks.filter (fun q => q.size == img_size)).head? with
      | some q =>
        write_image_to_temp (geostore_get_image_data fetch q.image)
          [q.image] temp_name
      | Option.none =>
        { result := .error "StopIteration", requested := [], written := [] }
    | Option.none =>
      write_image_to_temp (geostore_get_image_data fetch preview_url)
        [preview_url] temp_name

/-- Modelled from the claim's words for the HEADFinder `maxscenes`
cap: the stored value equals `max_scenes` when `max_scenes` is truthy
and at most 50, and equals 50 otherwise (`0`, `None`, or above 50). -/
def maxScenesSpec : Option Int → Int
  | some n => if n ≠ 0 ∧ n ≤ 50 then n else 50
  | Option.none => 50

/-!
# Theorems for the claims
-/

/-- C4: for every pair of values `(a, b)` the inclusive-range encoder
(`AbstractApi._get_included_values` and its GeoStore copy
`Api.__get_dates`) returns `"[" ++ str(a) ++ "," ++ str(b) ++ "["`; in
particular the literal
`inclusiveRange("2018-01-01","2018-02-01") = "[2018-01-01,2018-02-01["`.
Purity is intrinsic: both are Lean functions of their arguments alone. -/
theorem inclusive_range_encodes_pair :
    (∀ a b : PyVal,
      abstract_get_included_values a b =
        "[" ++ pyStr a ++ "," ++ pyStr b ++ "[" ∧
      geostore_get_dates a b =
        "[" ++ pyStr a ++ "," ++ pyStr b ++ "[") ∧
    abstract_get_included_values (.str "2018-01-01") (.str "2018-02-01") =
      "[2018-01-01,2018-02-01[" ∧
    geostore_get_dates (.str "2018-01-01") (.str "2018-02-01") =
      "[2018-01-01,2018-02-01[" := by
  refine ⟨fun a b => ⟨rfl, rfl⟩, ?_, ?_⟩ <;> rfl

/-- C5: for every value `v` the upper-bound encoder
(`AbstractApi._get_less_than_or_equals` and its GeoStore copy
`Api.__get_less_than_or_equals`) returns `str(v) ++ "["`; in particular
`upperBound(10) = "10["`.  Purity is intrinsic: both are Lean functions
of their arguments alone. -/
theorem upper_bound_encodes_value :
    (∀ v : PyVal,
      abstract_get_less_than_or_equals v = pyStr v ++ "[" ∧
      geostore_get_less_than_or_equals v = pyStr v ++ "[") ∧
    abstract_get_less_than_or_equals (.int 10) = "10[" ∧
    geostore_get_less_than_or_equals (.int 10) = "10[" := by
  refine ⟨fun v => ⟨rfl, rfl⟩, ?_, ?_⟩ <;> rfl

/-- C7: for every sort-key string, `geostore.Api.__get_sort_keys` agrees
with the specified mapping: a leading `-` encodes order "0" (otherwise
"1") and is stripped before mapping; after stripping, `date` maps to
`acquisitionDate`, `cloud_rate` to `cloudCover`, any other key (the
empty string included) falls back to `acquisitionDate`; the result has
the shape `<field>,,<order>`. -/
theorem geostore_sort_keys_follow_spec :
    ∀ sort_key : String,
      geostore_get_sort_keys sort_key = sortKeysSpec sort_key := by
  intro s
  by_cases h : s = ""
  · subst h; rfl
  · by_cases hd : s.startsWith "-" <;>
      simp [geostore_get_sort_keys, sortKeysSpec, h, hd]

/-- C1 fails as stated: the claim quantifies over every `Session`, but
`get_token` never clears a previously set field.  A session that failed
once (so `errors` is set) and then receives a successful
credential-exchange response ends with BOTH `token` and `errors` set;
and a fresh session receiving a fault-free non-403 response whose body
lacks `access_token` ends with NEITHER set (while `get_token` still
returns `True`). -/
theorem get_token_exclusivity_counterexample :
    (pyTruthy (get_token
        { api_key := "k", token := PyVal.none,
          errors := PyVal.dict [("error", .str "invalid key")] }
        { status := 200, body := [("access_token", .str "tok")] }).1.token
        = true ∧
     pyTruthy (get_token
        { api_key := "k", token := PyVal.none,
          errors := PyVal.dict [("error", .str "invalid key")] }
        { status := 200, body := [("access_token", .str "tok")] }).1.errors
        = true) ∧
    ((get_token (Session.new "k") { status := 200, body := [] }).1.token
        = PyVal.none ∧
     (get_token (Session.new "k") { status := 200, body := [] }).1.errors
        = PyVal.none ∧
     (get_token (Session.new "k") { status := 200, body := [] }).2
        = true) := by
  exact ⟨⟨rfl, rfl⟩, rfl, rfl, rfl⟩

/-- C1 (amended): on a FRESH session (`token` and `errors` both unset),
a `get_token` call that completes without a transport fault leaves
exactly one of the two fields set, provided the response is
well-formed for its case: a 403 (invalid key) with a non-empty error
body yields `token = None` and a non-empty `errors`; a non-403 (valid
key) response carrying an `access_token` yields `token ≠ None` and
`errors = None`.  (For non-fresh sessions the claim fails, see the
counterexample.) -/
theorem get_token_exclusivity_fresh (s : Session) (r : AuthResponse)
    (htok : s.token = PyVal.none) (herr : s.errors = PyVal.none) :
    (r.status = 403 → r.body ≠ [] →
      (get_token s r).1.token = PyVal.none ∧
      pyTruthy (get_token s r).1.errors = true) ∧
    (r.status ≠ 403 → dictGet r.body "access_token" ≠ PyVal.none →
      (get_token s r).1.token ≠ PyVal.none ∧
      (get_token s r).1.errors = PyVal.none) := by
  constructor
  · intro h403 hbody
    simp [get_token, h403, htok, pyTruthy, hbody]
  · intro hnot hvalid
    simp [get_token, hnot, herr, hvalid]

/-- Witness for the amended C1 theorem, at a fresh session and the two
concrete responses (a 403 with an error body; a 200 with a token). -/
theorem get_token_exclusivity_fresh_witness :
    ((get_token (Session.new "k")
        { status := 403, body := [("error", .str "invalid key")] }).1.token
        = PyVal.none ∧
     pyTruthy (get_token (Session.new "k")
        { status := 403, body := [("error", .str "invalid key")] }).1.errors
        = true) ∧
    ((get_token (Session.new "k")
        { status := 200, body := [("access_token", .str "tok")] }).1.token
        ≠ PyVal.none ∧
     (get_token (Session.new "k")
        { status := 200, body := [("access_token", .str "tok")] }).1.errors
        = PyVal.none) := by
  constructor
  · exact (get_token_exclusivity_fresh (Session.new "k")
      { status := 403, body := [("error", .str "invalid key")] }
      rfl rfl).1 rfl (by simp)
  · exact (get_token_exclusivity_fresh (Session.new "k")
      { status := 200, body := [("access_token", .str "tok")] }
      rfl rfl).2 (by simp) (by simp [dictGet])

/-- C2: on an HTTP 403 credential-exchange response, `get_token` stores
the decoded JSON error body in `errors`, returns `False`, and leaves
`token` untouched.  No exception is modelled on this branch because the
source raises none there (the embedding is total). -/
theorem get_token_403_stores_error (s : Session) (r : AuthResponse)
    (h : r.status = 403) :
    (get_token s r).1.errors = .dict r.body ∧
    (get_token s r).1.token = s.token ∧
    (get_token s r).2 = false := by
  simp [get_token, h]

/-- Witness for the C2 theorem at a concrete session and 403 response. -/
theorem get_token_403_stores_error_witness :
    (get_token (Session.new "k")
        { status := 403, body := [("error", .str "denied")] }).1.errors
      = .dict [("error", .str "denied")] ∧
    (get_token (Session.new "k")
        { status := 403, body := [("error", .str "denied")] }).1.token
      = (Session.new "k").token ∧
    (get_token (Session.new "k")
        { status := 403, body := [("error", .str "denied")] }).2 = false :=
  get_token_403_stores_error (Session.new "k")
    { status := 403, body := [("error", .str "denied")] } rfl

/-- C3: for a session with no token set, each dependent operation
(`get_roles`, `get_me`, `get_all_subscriptions`, `get_cis_contracts`)
first runs `get_token` (the resulting session is exactly the
post-`get_token` one), and when that authentication attempt fails
(403) the operation returns the falsy `False` without raising. -/
theorem dependent_ops_return_falsy_on_auth_failure (s : Session)
    (authResp rolesResp meResp subsResp cisResp : AuthResponse)
    (hno : pyTruthy s.token = false) (hfail : authResp.status = 403) :
    get_roles s authResp rolesResp =
      ((get_token s authResp).1, .bool false) ∧
    get_me s authResp meResp =
      ((get_token s authResp).1, .bool false) ∧
    get_all_subscriptions s authResp meResp subsResp =
      .ok ((get_token s authResp).1, .bool false) ∧
    get_cis_contracts s authResp cisResp =
      ((get_token s authResp).1, .bool false) := by
  have hens : ensure_token s authResp = get_token s authResp := by
    simp [ensure_token, hno]
  have h2 : (get_token s authResp).2 = false := by
    simp [get_token, hfail]
  refine ⟨?_, ?_, ?_, ?_⟩ <;>
    simp [get_roles, get_me, get_all_subscriptions, get_cis_contracts,
      hens, h2]
  rfl

/-- Witness for the C3 theorem: a fresh session and a 403 auth
response (other responses arbitrary but concrete). -/
theorem dependent_ops_return_falsy_on_auth_failure_witness :
    get_roles (Session.new "k")
        { status := 403, body := [("error", .str "denied")] }
        { status := 200, body := [] } =
      ((get_token (Session.new "k")
          { status := 403, body := [("error", .str "denied")] }).1,
        .bool false) ∧
    get_me (Session.new "k")
        { status := 403, body := [("error", .str "denied")] }
        { status := 200, body := [] } =
      ((get_token (Session.new "k")
          { status := 403, body := [("error", .str "denied")] }).1,
        .bool false) ∧
    get_all_subscriptions (Session.new "k")
        { status := 403, body := [("error", .str "denied")] }
        { status := 200, body := [] } { status := 200, body := [] } =
      .ok ((get_token (Session.new "k")
          { status := 403, body := [("error", .str "denied")] }).1,
        .bool false) ∧
    get_cis_contracts (Session.new "k")
        { status := 403, body := [("error", .str "denied")] }
        { status := 200, body := [] } =
      ((get_token (Session.new "k")
          { status := 403, body := [("error", .str "denied")] }).1,
        .bool false) :=
  dependent_ops_return_falsy_on_auth_failure (Session.new "k")
    { status := 403, body := [("error", .str "denied")] }
    { status := 200, body := [] } { status := 200, body := [] }
    { status := 200, body := [] } { status := 200, body := [] }
    rfl rfl

/-- C8: supplying both a (truthy) feature and a (truthy) preview URL to
`get_image_path` raises `ValueError` immediately — before any network
request (no URL is fetched, nothing is written) — in both the OneAtlas
and the GeoStore wrapper. -/
theorem image_path_rejects_both_arguments (f : OneAtlasFeature)
    (g : GeoStoreFeature) (u img_size temp_name : String)
    (fetch : String → HttpResponse) (hu : u ≠ "") :
    oneatlas_get_image_path (some f) u fetch temp_name =
      { result := .error "Both feature and preview_url is not allowed",
        requested := [], written := [] } ∧
    geostore_get_image_path (some g) u img_size fetch temp_name =
      { result := .error "Both feature and preview_url is not allowed",
        requested := [], written := [] } := by
  constructor <;>
    simp [oneatlas_get_image_path, geostore_get_image_path, hu]

/-- Witness for the C8 theorem at concrete features, URL and oracle. -/
theorem image_path_rejects_both_arguments_witness :
    oneatlas_get_image_path (some { thumbnail_href := "h" }) "u"
        (fun _ => { ok := false, content := [] }) "t" =
      { result := .error "Both feature and preview_url is not allowed",
        requested := [], written := [] } ∧
    geostore_get_image_path (some { quicklooks := [] }) "u" "LARGE"
        (fun _ => { ok := false, content := [] }) "t" =
      { result := .error "Both feature and preview_url is not allowed",
        requested := [], written := [] } :=
  image_path_rejects_both_arguments { thumbnail_href := "h" }
    { quicklooks := [] } "u" "LARGE" "t"
    (fun _ => { ok := false, content := [] }) (by decide)

/-- C9: `get_image_path` called with a preview URL returns `None` and
writes no file when the GET is not successful; on a successful GET it
writes the response body bytes to the freshly generated temporary file
with a `.jpg` extension and returns that path — in both wrappers. -/
theorem fetch_to_temp_writes_iff_success (u img_size temp_name : String)
    (fetch : String → HttpResponse) (_hu : u ≠ "") :
    ((fetch u).ok = false →
      oneatlas_get_image_path Option.none u fetch temp_name =
        { result := .ok Option.none, requested := [u], written := [] } ∧
      geostore_get_image_path Option.none u img_size fetch temp_name =
        { result := .ok Option.none, requested := [u], written := [] }) ∧
    ((fetch u).ok = true →
      oneatlas_get_image_path Option.none u fetch temp_name =
        { result := .ok (some (temp_name ++ ".jpg")), requested := [u],
          written := [(temp_name ++ ".jpg", (fetch u).content)] } ∧
      geostore_get_image_path Option.none u img_size fetch temp_name =
        { result := .ok (some (temp_name ++ ".jpg")), requested := [u],
          written := [(temp_name ++ ".jpg", (fetch u).content)] }) := by
  constructor <;>
    · intro hok
      constructor <;>
        simp [oneatlas_get_image_path, geostore_get_image_path,
          oneatlas_get_image_data, geostore_get_image_data,
          write_image_to_temp, hok]

/-- Witness for the C9 theorem: a failing oracle and a succeeding one
at concrete inputs. -/
theorem fetch_to_temp_writes_iff_success_witness :
    (oneatlas_get_image_path Option.none "u"
        (fun _ => { ok := false, content := [] }) "t" =
      { result := .ok Option.none, requested := ["u"], written := [] } ∧
     geostore_get_image_path Option.none "u" "LARGE"
        (fun _ => { ok := false, content := [] }) "t" =
      { result := .ok Option.none, requested := ["u"], written := [] }) ∧
    (oneatlas_get_image_path Option.none "u"
        (fun _ => { ok := true, content := [7, 8] }) "t" =
      { result := .ok (some "t.jpg"), requested := ["u"],
        written := [("t.jpg", [7, 8])] } ∧
     geostore_get_image_path Option.none "u" "LARGE"
        (fun _ => { ok := true, content := [7, 8] }) "t" =
      { result := .ok (some "t.jpg"), requested := ["u"],
        written := [("t.jpg", [7, 8])] }) :=
  ⟨(fetch_to_temp_writes_iff_success "u" "LARGE" "t"
      (fun _ => { ok := false, content := [] }) (by decide)).1 rfl,
   (fetch_to_temp_writes_iff_success "u" "LARGE" "t"
      (fun _ => { ok := true, content := [7, 8] }) (by decide)).2 rfl⟩

/-- Helper: `decide (l = [])` agrees with `List.isEmpty`. -/
theorem decide_eq_nil_eq_isEmpty {α : Type} [DecidableEq α]
    (l : List α) : decide (l = []) = l.isEmpty := by
  cases l <;> simp

/-- C6: in both payload builders every filter option whose value is
empty or falsy contributes no key at all to the returned payload (the
key is present exactly when the source's guard holds), while the
pagination keys (`count`/`itemsPerPage`, `startPage`) and the sort key
(`sortKeys`/`sortBy`) are present in every returned payload. -/
theorem payload_builders_omit_falsy_options :
    (∀ (bbox constellation : List PyVal) (adr : Option (PyVal × PyVal))
       (pc pt : List PyVal) (res geom cc sc ia : PyVal)
       (st ald od : List PyVal) (count sp : Int) (sk : String),
      let p := geostore_get_payload bbox constellation adr pc pt res
        geom cc sc ia st ald od count sp sk
      (p "count").isSome = true ∧
      (p "startPage").isSome = true ∧
      (p "sortKeys").isSome = true ∧
      (p "geometry").isSome = pyTruthy geom ∧
      (p "bbox").isSome = !bbox.isEmpty ∧
      (p "constellation").isSome = !constellation.isEmpty ∧
      (p "acquisitionDate").isSome = adr.isSome ∧
      (p "polarisationChannels").isSome = !pc.isEmpty ∧
      (p "productType").isSome = !pt.isEmpty ∧
      (p "resolution").isSome = pyTruthy res ∧
      (p "cloudCover").isSome = pyTruthy cc ∧
      (p "snowCover").isSome = pyTruthy sc ∧
      (p "incidenceAngle").isSome = pyTruthy ia ∧
      (p "sensorType").isSome = !st.isEmpty ∧
      (p "antennaLookDirection").isSome = !ald.isEmpty ∧
      (p "orbitDirection").isSome = !od.isEmpty) ∧
    (∀ (obbox ogeom : PyVal) (oadr opdr : Option (PyVal × PyVal))
       (occ osc ocref oconst oia opid : PyVal)
       (oplat optype oprod : List String) (ores osid ows : PyVal)
       (oproc : List String) (ocount osp : Int) (osk : String),
      let q := oneatlas_get_payload obbox ogeom oadr opdr occ osc ocref
        oconst oia opid oplat optype oprod ores osid ows oproc ocount
        osp osk
      (q "itemsPerPage").isSome = true ∧
      (q "startPage").isSome = true ∧
      (q "sortBy").isSome = true ∧
      (q "bbox").isSome = pyTruthy obbox ∧
      (q "geometry").isSome = pyTruthy ogeom ∧
      (q "incidenceAngle").isSome = pyTruthy oia ∧
      (q "acquisitionDate").isSome = oadr.isSome ∧
      (q "publicationDate").isSome = opdr.isSome ∧
      (q "cloudCover").isSome = pyTruthy occ ∧
      (q "snowCover").isSome = pyTruthy osc ∧
      (q "commercialReference").isSome = pyTruthy ocref ∧
      (q "parentIdenfifier").isSome = pyTruthy opid ∧
      (q "constellation").isSome = (pyTruthy oconst && oconst.isList) ∧
      (q "platform").isSome = !oplat.isEmpty ∧
      (q "productType").isSome = !optype.isEmpty ∧
      (q "sourceIdentifier").isSome = pyTruthy osid ∧
      (q "workspace").isSome = pyTruthy ows ∧
      (q "processingLevel").isSome = !oproc.isEmpty ∧
      (q "productionStatus").isSome = !oprod.isEmpty ∧
      (q "resolution").isSome = pyTruthy ores) := by
  constructor
  · intro bbox constellation adr pc pt res geom cc sc ia st ald od
      count sp sk p
    rcases adr with _ | ⟨a, b⟩ <;>
      refine ⟨?_, ?_, ?_, ?_, ?_, ?_, ?_, ?_, ?_, ?_, ?_, ?_, ?_, ?_,
        ?_, ?_⟩ <;>
      · simp [p, geostore_get_payload, PyDict.set_eval, PyDict.ite_eval,
          PyDict.empty, apply_ite Option.isSome,
          decide_eq_nil_eq_isEmpty]
  · intro obbox ogeom oadr opdr occ osc ocref oconst oia opid oplat
      optype oprod ores osid ows oproc ocount osp osk q
    rcases oadr with _ | ⟨a1, b1⟩ <;> rcases opdr with _ | ⟨a2, b2⟩ <;>
      refine ⟨?_, ?_, ?_, ?_, ?_, ?_, ?_, ?_, ?_, ?_, ?_, ?_, ?_, ?_,
        ?_, ?_, ?_, ?_, ?_, ?_⟩ <;>
      · simp [q, oneatlas_get_payload, PyDict.set_eval, PyDict.ite_eval,
          PyDict.empty, apply_ite Option.isSome,
          decide_eq_nil_eq_isEmpty]

/-- C10: every payload returned by the HEADFinder `get_payload` carries
the key `maxscenes` with a value at most 50: the value equals
`max_scenes` when `max_scenes` is truthy and at most 50, and equals 50
otherwise (`0`, `None`, or above 50). -/
theorem headfinder_maxscenes_capped
    (user_key : String) (bbox : List PyVal) (geometry : PyVal)
    (satellites : List String) (scene_id : PyVal)
    (scene_id_exact_match : Option Bool) (max_scenes : Option Int)
    (start_date end_date cloud_cover incidence_angle : PyVal) :
    headfinder_get_payload user_key bbox geometry satellites scene_id
        scene_id_exact_match max_scenes start_date end_date cloud_cover
        incidence_angle "maxscenes"
      = some (.int (maxScenesSpec max_scenes)) ∧
    maxScenesSpec max_scenes ≤ 50 := by
  constructor
  · rcases max_scenes with _ | n <;>
      simp [headfinder_get_payload, maxScenesSpec, PyDict.set_eval,
        PyDict.ite_eval, PyDict.empty, apply_ite PyVal.int,
        apply_ite (some : PyVal → Option PyVal)]
  · rcases max_scenes with _ | n
    · simp [maxScenesSpec]
    · simp only [maxScenesSpec]
      split <;> omega

end HexApi
